import Mathlib

/-!
Verification development for the `SEC_API` client (file `SEC_API.py`).

The client has five classmethod operations, each of which performs one HTTP
GET, parses the JSON body, and flattens it into a `pandas.DataFrame`.  We
embed the parsed JSON bodies as an inductive type `J`, a row of the
resulting DataFrame as an association list from column name to cell value,
and each operation as a function from the parsed body to
`Except PyErr (List Row)`.

Conventions of the embedding, matching Python/pandas semantics:
* `d[k]` on a dict raises `KeyError` when `k` is absent — modelled by
  `pyIndex`, which returns `Except.error (PyErr.keyError k)`.
* `d.get(k, np.nan)` returns the explicit missing-value marker `np.nan`
  when `k` is absent — modelled by `pyGet` with default `J.nan`.
* Iterating `.items()` of a dict visits entries in insertion order
  (guaranteed for Python dicts); a JSON object is therefore embedded as the
  ordered list of its key/value pairs.
* The trailing `pd.DataFrame.from_records(df_list)` on a list of dicts that
  all share the same keys is the identity up to table packaging, so the
  operations return the list of row dicts directly.
* `pd.DataFrame.from_records` applied to the columnar dict
  `raw_json["filings"]["recent"]` (parallel arrays keyed by field name) is
  modelled by `from_records_columnar`; unequal array lengths raise
  (modelled as `PyErr.valueError`).  Column order inside a row is not
  relied upon by any theorem below.
* `pd.DataFrame.from_records(raw_json).transpose()` in the ticker
  operation yields one row per entry of the keyed object, with one column
  per field name occurring in an entry (aligned by name, `np.nan` where an
  entry lacks a field); the subsequent `df.columns = ["cik","ticker","title"]`
  assignment raises unless the number of columns is exactly 3 (modelled as
  `PyErr.valueError`).  Row order across entries is not relied upon by any
  theorem below.
-/

namespace SECAPI

/-- Parsed JSON values, plus `nan`, the explicit missing-value marker
(`np.nan`) that the source uses as the default for absent fields.
Booleans and float literals are not needed by any claim and are omitted
from the modelled fragment. -/
inductive J where
  | null
  | nan
  | num (n : Int)
  | str (s : String)
  | arr (xs : List J)
  | obj (kvs : List (String × J))

/-- Python exceptions that the flattening code can raise. -/
inductive PyErr where
  | keyError (k : String)
  | typeError
  | valueError
deriving DecidableEq

/-- One row of the resulting DataFrame: column name to cell value, in
column order. -/
abbrev Row := List (String × J)

abbrev Res := Except PyErr (List Row)

/-- Python `d[k]` on a dict: the value, or `KeyError` when absent. -/
def pyIndex (kvs : List (String × J)) (k : String) : Except PyErr J :=
  match List.lookup k kvs with
  | some v => .ok v
  | none => .error (.keyError k)

/-- Python `d.get(k, np.nan)`: the value, or the missing-value marker. -/
def pyGet (kvs : List (String × J)) (k : String) : J :=
  (List.lookup k kvs).getD J.nan

/-- A value used as a dict (iterated with `.items()` or subscripted by
string): anything else raises `TypeError`/`AttributeError`. -/
def asObj : J → Except PyErr (List (String × J))
  | .obj kvs => .ok kvs
  | _ => .error .typeError

/-- A value iterated as a JSON array. -/
def asArr : J → Except PyErr (List J)
  | .arr xs => .ok xs
  | _ => .error .typeError

/-- Effectful map that stops at the first error (the order in which a
Python comprehension evaluates its element expressions). -/
def mapME (f : α → Except ε β) : List α → Except ε (List β)
  | [] => .ok []
  | x :: xs => do
      let y ← f x
      let ys ← mapME f xs
      pure (y :: ys)

/-- Effectful concat-map: a nested comprehension level. -/
def bindME (xs : List α) (f : α → Except ε (List β)) : Except ε (List β) :=
  match xs with
  | [] => .ok []
  | x :: rest => do
      let ys ← f x
      let zs ← bindME rest f
      pure (ys ++ zs)

/-! ## The five operations, translated from `SEC_API.py` -/

/-- First-appearance-order union of the field-name lists of the ticker
entries: the columns of `pd.DataFrame.from_records(raw_json).transpose()`. -/
def keyUnion (ls : List (List String)) : List String :=
  ls.foldl (fun acc l => acc ++ l.filter (fun k => !(acc.contains k))) []

/-- `pandas.Series.str.pad(w, fillchar=c)`: left-pad to width `w` (the
default side is left); strings already at least `w` long are unchanged. -/
def padLeft (s : String) (w : Nat) (c : Char) : String :=
  if s.length ≥ w then s else String.mk (List.replicate (w - s.length) c) ++ s

/-- Python `str(...)` as applied by `.astype("str")` to a cell.  The cik
cells this is applied to are JSON integers; the representation of
containers is not exercised by any claim. -/
def pyStr : J → String
  | .num n => toString n
  | .str s => s
  | .nan => "nan"
  | .null => "None"
  | .arr _ => "<list>"
  | .obj _ => "<dict>"

/-- The transformation `"CIK" + df["cik"].astype("str").str.pad(10, fillchar="0")`
applied to one cell of the cik column (line 33 of `SEC_API.py`). -/
def padCikCell (v : J) : J :=
  J.str ("CIK" ++ padLeft (pyStr v) 10 '0')

/-- `df["cik"] = ...` column assignment applied to one row: only the cell
of the column named `cik` changes. -/
def applyCikPad (r : Row) : Row :=
  r.map fun kv => if kv.1 = "cik" then (kv.1, padCikCell kv.2) else kv

/-- `SEC_API.get_companytickers` (lines 16–35), applied to the parsed body:
transpose the keyed object into one row per entry, rename the columns
positionally to `cik`, `ticker`, `title` (which raises unless there are
exactly 3 columns), and optionally reformat the cik column. -/
def get_companytickers (body : J) (parse_cik : Bool) : Res := do
  let doc ← asObj body
  let entries ← mapME (fun kv => asObj kv.2) doc
  let fields := keyUnion (entries.map (fun e => e.map Prod.fst))
  if fields.length = 3 then
    let named := entries.map fun e =>
      List.zip ["cik", "ticker", "title"] (fields.map fun k => pyGet e k)
    pure (if parse_cik then named.map applyCikPad else named)
  else
    .error .valueError

/-- `pd.DataFrame.from_records` on a columnar dict of parallel arrays:
one row per index, one column per field name; unequal lengths raise. -/
def from_records_columnar (kvs : List (String × J)) : Except PyErr (List Row) := do
  let cols ← mapME (fun kv => do
      let a ← asArr kv.2
      pure (kv.1, a)) kvs
  match cols with
  | [] => pure []
  | c0 :: rest =>
    if rest.all (fun c => c.2.length = c0.2.length) then
      pure ((List.range c0.2.length).map fun i =>
        (c0 :: rest).map fun c => (c.1, c.2.getD i J.nan))
    else
      .error .valueError

/-- `SEC_API.get_submissions` (lines 38–57), applied to the parsed body:
`raw_json["filings"]["recent"]` is a columnar dict of parallel arrays. -/
def get_submissions (body : J) : Res := do
  let doc ← asObj body
  let filingsJ ← pyIndex doc "filings"
  let filings ← asObj filingsJ
  let recentJ ← pyIndex filings "recent"
  let recent ← asObj recentJ
  from_records_columnar recent

/-- The dict display of `get_companyconcept` (lines 77–93) evaluated for
one observation `rowJ` of the unit named `unit`: the shared metadata keys
are subscripted anew for each emitted row (the comprehension re-evaluates
them), the observation fields use `.get` with the `np.nan` default. -/
def conceptObsBody (doc : List (String × J)) (unit : String) (rowJ : J) :
    Except PyErr Row := do
  let cik ← pyIndex doc "cik"
  let taxonomy ← pyIndex doc "taxonomy"
  let tag ← pyIndex doc "tag"
  let label ← pyIndex doc "label"
  let descr ← pyIndex doc "description"
  let entityName ← pyIndex doc "entityName"
  let row ← asObj rowJ
  pure [("cik", cik), ("taxonomy", taxonomy), ("tag", tag),
        ("label", label), ("description", descr), ("entityName", entityName),
        ("units", J.str unit),
        ("end", pyGet row "end"), ("val", pyGet row "val"),
        ("accn", pyGet row "accn"), ("fy", pyGet row "fy"),
        ("fp", pyGet row "fp"), ("form", pyGet row "form"),
        ("filed", pyGet row "filed"), ("frame", pyGet row "frame")]

/-- The inner comprehension level of `get_companyconcept` for one unit:
iterate `value_units` and evaluate the dict display per observation. -/
def conceptUnitLevel (doc : List (String × J)) (unit : String) (vals : J) : Res := do
  let obsList ← asArr vals
  mapME (conceptObsBody doc unit) obsList

/-- `SEC_API.get_companyconcept` (lines 60–98), applied to the parsed
body: one row per `(unit, observation)` pair, in unit iteration order and
within-unit array order. -/
def get_companyconcept (body : J) : Res := do
  let doc ← asObj body
  let unitsJ ← pyIndex doc "units"
  let unitsMap ← asObj unitsJ
  bindME unitsMap fun ku => conceptUnitLevel doc ku.1 ku.2

/-- The dict display of `get_companyfacts` (lines 116–132) evaluated for
one observation `rowJ` under taxonomy `taxonomy`, tag `tag` (whose value
object is `vtag`) and the unit named `unit`. -/
def factsObsBody (doc vtag : List (String × J)) (taxonomy tag unit : String)
    (rowJ : J) : Except PyErr Row := do
  let cik ← pyIndex doc "cik"
  let entityName ← pyIndex doc "entityName"
  let label ← pyIndex vtag "label"
  let descr ← pyIndex vtag "description"
  let row ← asObj rowJ
  pure [("cik", cik), ("entityName", entityName),
        ("taxonomy", J.str taxonomy), ("tag", J.str tag),
        ("label", label), ("description", descr),
        ("units", J.str unit),
        ("end", pyGet row "end"), ("val", pyGet row "val"),
        ("accn", pyGet row "accn"), ("fy", pyGet row "fy"),
        ("fp", pyGet row "fp"), ("form", pyGet row "form"),
        ("filed", pyGet row "filed"), ("frame", pyGet row "frame")]

/-- The innermost comprehension level of `get_companyfacts` for one unit:
iterate `value_units` and evaluate the dict display per observation. -/
def factsUnitLevel (doc vtag : List (String × J)) (taxonomy tag unit : String)
    (vals : J) : Res := do
  let obsList ← asArr vals
  mapME (factsObsBody doc vtag taxonomy tag unit) obsList

/-- The tag comprehension level of `get_companyfacts`: subscript the tag
value at `units` and iterate its entries. -/
def factsTagBody (doc : List (String × J)) (taxonomy tag : String) (vtagJ : J) :
    Res := do
  let vtag ← asObj vtagJ
  let unitsJ ← pyIndex vtag "units"
  let unitsMap ← asObj unitsJ
  bindME unitsMap fun ku => factsUnitLevel doc vtag taxonomy tag ku.1 ku.2

/-- The taxonomy comprehension level of `get_companyfacts`: iterate the
tags of one taxonomy. -/
def factsTaxBody (doc : List (String × J)) (taxonomy : String) (vtaxJ : J) :
    Res := do
  let tags ← asObj vtaxJ
  bindME tags fun kg => factsTagBody doc taxonomy kg.1 kg.2

/-- `SEC_API.get_companyfacts` (lines 101–139), applied to the parsed
body: four nested comprehension levels — taxonomy, tag, unit,
observation — emitting one row per innermost observation. -/
def get_companyfacts (body : J) : Res := do
  let doc ← asObj body
  let factsJ ← pyIndex doc "facts"
  let facts ← asObj factsJ
  bindME facts fun kt => factsTaxBody doc kt.1 kt.2

/-- The dict display of `get_frames` (lines 161–174) evaluated for one
entry `rowJ` of the data array: the six shared metadata keys are
subscripted directly (raising when absent), the entry fields use `.get`
with the `np.nan` default. -/
def framesEntryBody (doc : List (String × J)) (rowJ : J) : Except PyErr Row := do
  let taxonomy ← pyIndex doc "taxonomy"
  let tag ← pyIndex doc "tag"
  let ccp ← pyIndex doc "ccp"
  let uom ← pyIndex doc "uom"
  let label ← pyIndex doc "label"
  let descr ← pyIndex doc "description"
  let row ← asObj rowJ
  pure [("taxonomy", taxonomy), ("tag", tag), ("ccp", ccp), ("uom", uom),
        ("label", label), ("description", descr),
        ("accn", pyGet row "accn"), ("cik", pyGet row "cik"),
        ("entityName", pyGet row "entityName"), ("loc", pyGet row "loc"),
        ("end", pyGet row "end"), ("val", pyGet row "val")]

/-- `SEC_API.get_frames` (lines 142–178), applied to the parsed body: one
row per entry of `raw_json["data"]`. -/
def get_frames (body : J) : Res := do
  let doc ← asObj body
  let dataJ ← pyIndex doc "data"
  let entries ← asArr dataJ
  mapME (framesEntryBody doc) entries

/-! ## Transport layer

Each operation runs `requests.get(url, headers=...).json()`.  `requests.get`
raises on transport failure; a completed exchange carries an HTTP status
code and a body, and `.json()` raises when the body is not JSON.  The source
calls neither `raise_for_status` nor any status check, and performs no
retry: the operation proper is applied to whatever body came back. -/

/-- A completed HTTP exchange: a status code and the body (`none` when the
body does not parse as JSON). -/
structure HttpResp where
  status : Nat
  body : Option J

/-- Failures visible to the caller of one operation. -/
inductive ApiError where
  | network (msg : String)
  | jsonDecode
  | py (e : PyErr)
deriving DecidableEq

/-- `requests.get(url).json()` followed by flattening: a transport failure
propagates unchanged (no retry), a non-JSON body fails at `.json()`, and
otherwise the flattening `op` runs on the parsed body.  The status code is
never consulted. -/
def runOp (op : J → Res) (t : Except String HttpResp) : Except ApiError (List Row) :=
  match t with
  | .error e => .error (.network e)
  | .ok r =>
    match r.body with
    | none => .error .jsonDecode
    | some j =>
      match op j with
      | .ok rows => .ok rows
      | .error pe => .error (.py pe)

def http_get_companytickers (parse_cik : Bool) (t : Except String HttpResp) :
    Except ApiError (List Row) :=
  runOp (fun j => get_companytickers j parse_cik) t

def http_get_submissions (t : Except String HttpResp) : Except ApiError (List Row) :=
  runOp get_submissions t

def http_get_companyconcept (t : Except String HttpResp) : Except ApiError (List Row) :=
  runOp get_companyconcept t

def http_get_companyfacts (t : Except String HttpResp) : Except ApiError (List Row) :=
  runOp get_companyfacts t

def http_get_frames (t : Except String HttpResp) : Except ApiError (List Row) :=
  runOp get_frames t

/-! ## Encoders for well-formed upstream documents

These build the `J` value of an upstream document from typed data, so that
theorems can quantify over documents of the shape the upstream service
returns.  Each observation or data entry stays an untyped key/value list,
since the source reads its fields defensively with `.get`. -/

/-- The value of one tag inside the facts mapping: its label, description,
and unit-of-measure mapping to observation arrays. -/
structure TagData where
  label : J
  description : J
  units : List (String × List (List (String × J)))

/-- The key/value list of one tag value object. -/
def tagDoc (label descr unitsJ : J) : List (String × J) :=
  [("label", label), ("description", descr), ("units", unitsJ)]

/-- A unit-of-measure mapping with each observation array encoded. -/
def encodeUnits (units : List (String × List (List (String × J)))) : J :=
  .obj (units.map fun u => (u.1, J.arr (u.2.map J.obj)))

def encodeTag (t : TagData) : J :=
  .obj (tagDoc t.label t.description (encodeUnits t.units))

/-- The key/value list of a company-facts response object. -/
def factsDoc (cik en factsJ : J) : List (String × J) :=
  [("cik", cik), ("entityName", en), ("facts", factsJ)]

/-- The tag mapping of one taxonomy, encoded. -/
def encodeTags (tags : List (String × TagData)) : J :=
  .obj (tags.map fun g => (g.1, encodeTag g.2))

/-- The two-level facts mapping taxonomy → tag → tag value, encoded. -/
def encodeFactsMap (facts : List (String × List (String × TagData))) : J :=
  .obj (facts.map fun t => (t.1, encodeTags t.2))

/-- A company-facts document: `cik`, `entityName`, and the facts mapping. -/
def encodeFacts (cik en : J) (facts : List (String × List (String × TagData))) : J :=
  .obj (factsDoc cik en (encodeFactsMap facts))

/-- The key/value list of a single-concept response object. -/
def conceptDoc (cik taxonomy tag label descr en unitsJ : J) : List (String × J) :=
  [("cik", cik), ("taxonomy", taxonomy), ("tag", tag), ("label", label),
   ("description", descr), ("entityName", en), ("units", unitsJ)]

/-- A single-concept document: the six shared metadata values and the
unit-of-measure mapping to observation arrays. -/
def encodeConcept (cik taxonomy tag label descr en : J)
    (units : List (String × List (List (String × J)))) : J :=
  .obj (conceptDoc cik taxonomy tag label descr en (encodeUnits units))

/-- The key/value list of a frames response object. -/
def framesDoc (taxonomy tag ccp uom label descr dataJ : J) : List (String × J) :=
  [("taxonomy", taxonomy), ("tag", tag), ("ccp", ccp), ("uom", uom),
   ("label", label), ("description", descr), ("data", dataJ)]

/-- A frames document: the six shared metadata values and the data array. -/
def encodeFrames (taxonomy tag ccp uom label descr : J)
    (data : List (List (String × J))) : J :=
  .obj (framesDoc taxonomy tag ccp uom label descr (J.arr (data.map J.obj)))

/-- A submissions document whose `filings.recent` section is the given
columnar mapping of parallel arrays. -/
def encodeSubmissions (recent : List (String × List J)) : J :=
  .obj [("filings", .obj [("recent",
    .obj (recent.map fun c => (c.1, J.arr c.2)))])]

/-! ## Specification-side row builders

These spell out, straight from the spec's words, the row each operation is
said to emit and the order the rows are said to appear in; the refinement
theorems below compare the source-translated operations against them. -/

/-- The eight per-observation cells shared by the concept and facts rows,
each defaulting to the missing-value marker. -/
def obsCells (o : List (String × J)) : Row :=
  [("end", pyGet o "end"), ("val", pyGet o "val"),
   ("accn", pyGet o "accn"), ("fy", pyGet o "fy"),
   ("fp", pyGet o "fp"), ("form", pyGet o "form"),
   ("filed", pyGet o "filed"), ("frame", pyGet o "frame")]

/-- One Concept Observation row: shared concept metadata, the unit name,
then the observation's own fields. -/
def conceptRow (cik taxonomy tag label descr en : J) (unit : String)
    (o : List (String × J)) : Row :=
  [("cik", cik), ("taxonomy", taxonomy), ("tag", tag), ("label", label),
   ("description", descr), ("entityName", en), ("units", J.str unit)] ++ obsCells o

/-- Spec order for the single-concept operation: unit iteration order,
then within-unit array order. -/
def companyconceptSpecRows (cik taxonomy tag label descr en : J)
    (units : List (String × List (List (String × J)))) : List Row :=
  units.flatMap fun u => u.2.map (conceptRow cik taxonomy tag label descr en u.1)

/-- One Company Fact Observation row: identifier and entity name, the
ancestry's taxonomy, tag and unit names, the tag's label/description, then
the observation's own fields. -/
def factsRow (cik en : J) (taxonomy tag : String) (label descr : J)
    (unit : String) (o : List (String × J)) : Row :=
  [("cik", cik), ("entityName", en), ("taxonomy", J.str taxonomy),
   ("tag", J.str tag), ("label", label), ("description", descr),
   ("units", J.str unit)] ++ obsCells o

/-- Spec order for the company-facts operation: taxonomy iteration order,
then tag order within taxonomy, then unit order within tag, then
observation array order. -/
def companyfactsSpecRows (cik en : J)
    (facts : List (String × List (String × TagData))) : List Row :=
  facts.flatMap fun t => t.2.flatMap fun g =>
    g.2.units.flatMap fun u =>
      u.2.map (factsRow cik en t.1 g.1 g.2.label g.2.description u.1)

/-- One Frame Observation row: the call's shared metadata, then the
entry's own fields, each defaulting to the missing-value marker. -/
def frameRow (taxonomy tag ccp uom label descr : J) (o : List (String × J)) : Row :=
  [("taxonomy", taxonomy), ("tag", tag), ("ccp", ccp), ("uom", uom),
   ("label", label), ("description", descr),
   ("accn", pyGet o "accn"), ("cik", pyGet o "cik"),
   ("entityName", pyGet o "entityName"), ("loc", pyGet o "loc"),
   ("end", pyGet o "end"), ("val", pyGet o "val")]

/-- The declared column set of the single-concept operation. -/
def conceptCols : List String :=
  ["cik", "taxonomy", "tag", "label", "description", "entityName", "units",
   "end", "val", "accn", "fy", "fp", "form", "filed", "frame"]

/-- The declared column set of the company-facts operation. -/
def factsCols : List String :=
  ["cik", "entityName", "taxonomy", "tag", "label", "description", "units",
   "end", "val", "accn", "fy", "fp", "form", "filed", "frame"]

/-- The keys the single-concept operation subscripts on the top-level
response object. -/
def conceptTopKeys : List String :=
  ["cik", "taxonomy", "tag", "label", "description", "entityName", "units"]

/-- The keys an observation record is read at (all via `.get`). -/
def obsKeys : List String :=
  ["end", "val", "accn", "fy", "fp", "form", "filed", "frame"]

/-- The declared column set of the frames operation. -/
def framesCols : List String :=
  ["taxonomy", "tag", "ccp", "uom", "label", "description",
   "accn", "cik", "entityName", "loc", "end", "val"]

/-- Every key any operation subscripts on a response object (top level,
or the `filings` object of the submissions operation).  A field outside
this list is unspecified for every operation. -/
def readTopKeys : List String :=
  ["cik", "taxonomy", "tag", "label", "description", "entityName", "units",
   "facts", "data", "uom", "ccp", "filings", "recent"]

/-- Every key any operation reads (via `.get`) on a per-record object: an
observation of the concept/facts operations or a data entry of the frames
operation. -/
def readRecordKeys : List String :=
  ["end", "val", "accn", "fy", "fp", "form", "filed", "frame",
   "cik", "entityName", "loc"]

/-- The ticker and title cells of one ticker row. -/
def tickerTitleProj (r : Row) : Option J × Option J :=
  (List.lookup "ticker" r, List.lookup "title" r)

/-! ## Helper lemmas -/

@[simp] theorem ok_bind (a : α) (f : α → Except ε β) :
    (Except.ok a >>= f) = f a := rfl

@[simp] theorem error_bind (e : ε) (f : α → Except ε β) :
    ((Except.error e : Except ε α) >>= f) = .error e := rfl

theorem bindE_ok {x : Except ε α} {f : α → Except ε β} {b : β}
    (h : x >>= f = .ok b) : ∃ a, x = .ok a ∧ f a = .ok b := by
  cases x with
  | ok a => exact ⟨a, rfl, h⟩
  | error e => simp at h

theorem mapME_nil (f : α → Except ε β) : mapME f [] = .ok [] := rfl

theorem mapME_cons (f : α → Except ε β) (x : α) (xs : List α) :
    mapME f (x :: xs) =
      f x >>= fun y => mapME f xs >>= fun ys => pure (y :: ys) := rfl

theorem bindME_nil (f : α → Except ε (List β)) : bindME [] f = .ok [] := rfl

theorem bindME_cons (f : α → Except ε (List β)) (x : α) (xs : List α) :
    bindME (x :: xs) f =
      f x >>= fun ys => bindME xs f >>= fun zs => pure (ys ++ zs) := rfl

/-- A `mapME` over an encoded list succeeds elementwise. -/
theorem mapME_map_ok (enc : α → γ) (f : γ → Except ε β) (g : α → β)
    (h : ∀ a, f (enc a) = .ok (g a)) :
    ∀ l : List α, mapME f (l.map enc) = .ok (l.map g)
  | [] => rfl
  | a :: t => by
      simp [mapME_cons, h a, mapME_map_ok enc f g h t]

/-- A `bindME` over an encoded list succeeds elementwise. -/
theorem bindME_map_ok (enc : α → γ) (f : γ → Except ε (List β)) (g : α → List β)
    (h : ∀ a, f (enc a) = .ok (g a)) :
    ∀ l : List α, bindME (l.map enc) f = .ok (l.flatMap g)
  | [] => rfl
  | a :: t => by
      simp [bindME_cons, h a, bindME_map_ok enc f g h t]

theorem mapME_ok_mem {f : α → Except ε β} :
    ∀ {xs : List α} {ys : List β}, mapME f xs = .ok ys →
      ∀ y ∈ ys, ∃ x ∈ xs, f x = .ok y := by
  intro xs
  induction xs with
  | nil =>
    intro ys h y hy
    simp [mapME_nil] at h
    subst h
    simp at hy
  | cons x t ih =>
    intro ys h y hy
    rw [mapME_cons] at h
    obtain ⟨b, hb, h⟩ := bindE_ok h
    obtain ⟨bs, hbs, h⟩ := bindE_ok h
    simp only [pure, Except.pure, Except.ok.injEq] at h
    subst h
    rcases List.mem_cons.1 hy with rfl | hmem
    · exact ⟨x, List.mem_cons_self x t, hb⟩
    · obtain ⟨x', hx', hfx'⟩ := ih hbs y hmem
      exact ⟨x', List.mem_cons_of_mem x hx', hfx'⟩

theorem bindME_ok_mem {f : α → Except ε (List β)} :
    ∀ {xs : List α} {ys : List β}, bindME xs f = .ok ys →
      ∀ y ∈ ys, ∃ x ∈ xs, ∃ zs, f x = .ok zs ∧ y ∈ zs := by
  intro xs
  induction xs with
  | nil =>
    intro ys h y hy
    simp [bindME_nil] at h
    subst h
    simp at hy
  | cons x t ih =>
    intro ys h y hy
    rw [bindME_cons] at h
    obtain ⟨b, hb, h⟩ := bindE_ok h
    obtain ⟨bs, hbs, h⟩ := bindE_ok h
    simp only [pure, Except.pure, Except.ok.injEq] at h
    subst h
    rcases List.mem_append.1 hy with hmem | hmem
    · exact ⟨x, List.mem_cons_self x t, b, hb, hmem⟩
    · obtain ⟨x', hx', zs, hfx', hz⟩ := ih hbs y hmem
      exact ⟨x', List.mem_cons_of_mem x hx', zs, hfx', hz⟩

/-- Appending one extra key at the end of an association list does not
change lookups at other keys. -/
theorem lookup_append_single {k r : String} (v : J) (h : r ≠ k) :
    ∀ base : List (String × J),
      List.lookup r (base ++ [(k, v)]) = List.lookup r base
  | [] => by
      simp [List.lookup, beq_eq_false_iff_ne.2 h]
  | p :: t => by
      simp only [List.cons_append, List.lookup]
      cases r == p.1 <;> simp [lookup_append_single v h t]

theorem pyIndex_append_single {k r : String} (v : J) (h : r ≠ k)
    (base : List (String × J)) :
    pyIndex (base ++ [(k, v)]) r = pyIndex base r := by
  simp [pyIndex, lookup_append_single v h base]

theorem pyGet_append_single {k r : String} (v : J) (h : r ≠ k)
    (base : List (String × J)) :
    pyGet (base ++ [(k, v)]) r = pyGet base r := by
  simp [pyGet, lookup_append_single v h base]

/-! ## Refinement lemmas: the operations on well-formed encoded documents
equal the spec-side flattenings. -/

theorem conceptUnitLevel_encode (cik taxonomy tag label descr en unitsJ : J)
    (u : String) (obs : List (List (String × J))) :
    conceptUnitLevel (conceptDoc cik taxonomy tag label descr en unitsJ) u
        (J.arr (obs.map J.obj)) =
      .ok (obs.map (conceptRow cik taxonomy tag label descr en u)) :=
  mapME_map_ok J.obj
    (conceptObsBody (conceptDoc cik taxonomy tag label descr en unitsJ) u)
    (conceptRow cik taxonomy tag label descr en u)
    (fun _ => rfl) obs

theorem get_companyconcept_encode (cik taxonomy tag label descr en : J)
    (units : List (String × List (List (String × J)))) :
    get_companyconcept (encodeConcept cik taxonomy tag label descr en units) =
      .ok (companyconceptSpecRows cik taxonomy tag label descr en units) :=
  bindME_map_ok
    (fun u : String × List (List (String × J)) => (u.1, J.arr (u.2.map J.obj)))
    (fun ku => conceptUnitLevel
      (conceptDoc cik taxonomy tag label descr en (encodeUnits units)) ku.1 ku.2)
    (fun u => u.2.map (conceptRow cik taxonomy tag label descr en u.1))
    (fun u => conceptUnitLevel_encode cik taxonomy tag label descr en
      (encodeUnits units) u.1 u.2) units

theorem factsUnitLevel_encode (cik en factsJ label descr unitsJ : J)
    (taxonomy tag u : String) (obs : List (List (String × J))) :
    factsUnitLevel (factsDoc cik en factsJ) (tagDoc label descr unitsJ)
        taxonomy tag u (J.arr (obs.map J.obj)) =
      .ok (obs.map (factsRow cik en taxonomy tag label descr u)) :=
  mapME_map_ok J.obj
    (factsObsBody (factsDoc cik en factsJ) (tagDoc label descr unitsJ)
      taxonomy tag u)
    (factsRow cik en taxonomy tag label descr u)
    (fun _ => rfl) obs

theorem factsTagBody_encode (cik en factsJ : J) (taxonomy tag : String)
    (t : TagData) :
    factsTagBody (factsDoc cik en factsJ) taxonomy tag (encodeTag t) =
      .ok (t.units.flatMap fun u =>
        u.2.map (factsRow cik en taxonomy tag t.label t.description u.1)) :=
  bindME_map_ok
    (fun u : String × List (List (String × J)) => (u.1, J.arr (u.2.map J.obj)))
    (fun ku => factsUnitLevel (factsDoc cik en factsJ)
      (tagDoc t.label t.description (encodeUnits t.units)) taxonomy tag ku.1 ku.2)
    (fun u => u.2.map (factsRow cik en taxonomy tag t.label t.description u.1))
    (fun u => factsUnitLevel_encode cik en factsJ t.label t.description
      (encodeUnits t.units) taxonomy tag u.1 u.2) t.units

theorem factsTaxBody_encode (cik en factsJ : J) (taxonomy : String)
    (tags : List (String × TagData)) :
    factsTaxBody (factsDoc cik en factsJ) taxonomy (encodeTags tags) =
      .ok (tags.flatMap fun g => g.2.units.flatMap fun u =>
        u.2.map (factsRow cik en taxonomy g.1 g.2.label g.2.description u.1)) :=
  bindME_map_ok
    (fun g : String × TagData => (g.1, encodeTag g.2))
    (fun kg => factsTagBody (factsDoc cik en factsJ) taxonomy kg.1 kg.2)
    (fun g => g.2.units.flatMap fun u =>
      u.2.map (factsRow cik en taxonomy g.1 g.2.label g.2.description u.1))
    (fun g => factsTagBody_encode cik en factsJ taxonomy g.1 g.2) tags

theorem get_companyfacts_encode (cik en : J)
    (facts : List (String × List (String × TagData))) :
    get_companyfacts (encodeFacts cik en facts) =
      .ok (companyfactsSpecRows cik en facts) :=
  bindME_map_ok
    (fun t : String × List (String × TagData) => (t.1, encodeTags t.2))
    (fun kt => factsTaxBody (factsDoc cik en (encodeFactsMap facts)) kt.1 kt.2)
    (fun t => t.2.flatMap fun g => g.2.units.flatMap fun u =>
      u.2.map (factsRow cik en t.1 g.1 g.2.label g.2.description u.1))
    (fun t => factsTaxBody_encode cik en (encodeFactsMap facts) t.1 t.2) facts

theorem get_frames_encode (taxonomy tag ccp uom label descr : J)
    (data : List (List (String × J))) :
    get_frames (encodeFrames taxonomy tag ccp uom label descr data) =
      .ok (data.map (frameRow taxonomy tag ccp uom label descr)) :=
  mapME_map_ok J.obj
    (framesEntryBody
      (framesDoc taxonomy tag ccp uom label descr (J.arr (data.map J.obj))))
    (frameRow taxonomy tag ccp uom label descr)
    (fun _ => rfl) data

theorem get_submissions_encode (recent : List (String × List J)) :
    get_submissions (encodeSubmissions recent) =
      from_records_columnar (recent.map fun c => (c.1, J.arr c.2)) := rfl

theorem from_records_columnar_cols (recent : List (String × List J)) :
    mapME (fun kv => asArr kv.2 >>= fun a => pure (kv.1, a))
        (recent.map fun c => (c.1, J.arr c.2)) = .ok recent := by
  have h := mapME_map_ok (fun c : String × List J => (c.1, J.arr c.2))
    (fun kv : String × J => asArr kv.2 >>= fun a => pure (kv.1, a))
    (fun c => c) (fun _ => rfl) recent
  simpa using h

/-- In a row assembled from one cell per parallel array, looking up a
field name returns that array's cell, provided field names are distinct. -/
theorem lookup_row_cell (i : Nat) :
    ∀ (l : List (String × List J)) (p : String × List J), p ∈ l →
      (l.map Prod.fst).Nodup →
      List.lookup p.1 (l.map fun c => (c.1, c.2.getD i J.nan)) =
        some (p.2.getD i J.nan)
  | [], p, hp, _ => absurd hp (List.not_mem_nil p)
  | q :: t, p, hp, hnd => by
      rw [List.map_cons] at hnd
      rcases List.mem_cons.1 hp with rfl | hpt
      · simp [List.lookup]
      · have hne : (p.1 == q.1) = false := by
          refine beq_eq_false_iff_ne.2 ?_
          intro he
          have h1 : p.1 ∈ t.map Prod.fst := List.mem_map_of_mem Prod.fst hpt
          rw [he] at h1
          exact (List.nodup_cons.1 hnd).1 h1
        rw [List.map_cons]
        simp only [List.lookup, hne]
        exact lookup_row_cell i t p hpt (List.nodup_cons.1 hnd).2

/-! ## Claim theorems -/

/-- Every row the concept dict display produces has exactly the declared
concept columns, in order. -/
theorem conceptObsBody_cols {doc : List (String × J)} {u : String} {rowJ : J}
    {r : Row} (h : conceptObsBody doc u rowJ = .ok r) :
    r.map Prod.fst = conceptCols := by
  unfold conceptObsBody at h
  obtain ⟨cik, hx1, h⟩ := bindE_ok h
  obtain ⟨tax, hx2, h⟩ := bindE_ok h
  obtain ⟨tg, hx3, h⟩ := bindE_ok h
  obtain ⟨lb, hx4, h⟩ := bindE_ok h
  obtain ⟨ds, hx5, h⟩ := bindE_ok h
  obtain ⟨en, hx6, h⟩ := bindE_ok h
  obtain ⟨row, hx7, h⟩ := bindE_ok h
  simp only [pure, Except.pure, Except.ok.injEq] at h
  subst h
  rfl

/-- Every row the facts dict display produces has exactly the declared
facts columns, in order. -/
theorem factsObsBody_cols {doc vtag : List (String × J)} {taxonomy tag u : String}
    {rowJ : J} {r : Row} (h : factsObsBody doc vtag taxonomy tag u rowJ = .ok r) :
    r.map Prod.fst = factsCols := by
  unfold factsObsBody at h
  obtain ⟨cik, hx1, h⟩ := bindE_ok h
  obtain ⟨en, hx2, h⟩ := bindE_ok h
  obtain ⟨lb, hx3, h⟩ := bindE_ok h
  obtain ⟨ds, hx4, h⟩ := bindE_ok h
  obtain ⟨row, hx5, h⟩ := bindE_ok h
  simp only [pure, Except.pure, Except.ok.injEq] at h
  subst h
  rfl

/-- Any successful `get_companyconcept` call produces rows that all carry
the declared concept columns. -/
theorem get_companyconcept_cols {body : J} {rows : List Row}
    (h : get_companyconcept body = .ok rows) :
    ∀ r ∈ rows, r.map Prod.fst = conceptCols := by
  unfold get_companyconcept at h
  obtain ⟨doc, hd, h⟩ := bindE_ok h
  obtain ⟨unitsJ, hu, h⟩ := bindE_ok h
  obtain ⟨unitsMap, hm, h⟩ := bindE_ok h
  intro r hr
  obtain ⟨ku, hku, zs, hz, hrz⟩ := bindME_ok_mem h r hr
  unfold conceptUnitLevel at hz
  obtain ⟨obsList, ho, hz⟩ := bindE_ok hz
  obtain ⟨rowJ, hrow, hb⟩ := mapME_ok_mem hz r hrz
  exact conceptObsBody_cols hb

/-- Any successful `get_companyfacts` call produces rows that all carry
the declared facts columns. -/
theorem get_companyfacts_cols {body : J} {rows : List Row}
    (h : get_companyfacts body = .ok rows) :
    ∀ r ∈ rows, r.map Prod.fst = factsCols := by
  unfold get_companyfacts at h
  obtain ⟨doc, hd, h⟩ := bindE_ok h
  obtain ⟨factsJ, hf, h⟩ := bindE_ok h
  obtain ⟨facts, hfs, h⟩ := bindE_ok h
  intro r hr
  obtain ⟨kt, hkt, zs1, hz1, hr1⟩ := bindME_ok_mem h r hr
  unfold factsTaxBody at hz1
  obtain ⟨tags, ht, hz1⟩ := bindE_ok hz1
  obtain ⟨kg, hkg, zs2, hz2, hr2⟩ := bindME_ok_mem hz1 r hr1
  unfold factsTagBody at hz2
  obtain ⟨vtag, hv, hz2⟩ := bindE_ok hz2
  obtain ⟨unitsJ, hu, hz2⟩ := bindE_ok hz2
  obtain ⟨unitsMap, hm, hz2⟩ := bindE_ok hz2
  obtain ⟨ku, hku, zs3, hz3, hr3⟩ := bindME_ok_mem hz2 r hr2
  unfold factsUnitLevel at hz3
  obtain ⟨obsList, ho, hz3⟩ := bindE_ok hz3
  obtain ⟨rowJ, hrow, hb⟩ := mapME_ok_mem hz3 r hr3
  exact factsObsBody_cols hb

/-- Every row the frames dict display produces has exactly the declared
frames columns, in order. -/
theorem framesEntryBody_cols {doc : List (String × J)} {rowJ : J} {r : Row}
    (h : framesEntryBody doc rowJ = .ok r) :
    r.map Prod.fst = framesCols := by
  unfold framesEntryBody at h
  obtain ⟨tax, hx1, h⟩ := bindE_ok h
  obtain ⟨tg, hx2, h⟩ := bindE_ok h
  obtain ⟨cp, hx3, h⟩ := bindE_ok h
  obtain ⟨um, hx4, h⟩ := bindE_ok h
  obtain ⟨lb, hx5, h⟩ := bindE_ok h
  obtain ⟨ds, hx6, h⟩ := bindE_ok h
  obtain ⟨row, hx7, h⟩ := bindE_ok h
  simp only [pure, Except.pure, Except.ok.injEq] at h
  subst h
  rfl

/-- Any successful `get_frames` call produces rows that all carry the
declared frames columns. -/
theorem get_frames_cols {body : J} {rows : List Row}
    (h : get_frames body = .ok rows) :
    ∀ r ∈ rows, r.map Prod.fst = framesCols := by
  unfold get_frames at h
  obtain ⟨doc, hd, h⟩ := bindE_ok h
  obtain ⟨dataJ, hdj, h⟩ := bindE_ok h
  obtain ⟨entries, he, h⟩ := bindE_ok h
  intro r hr
  obtain ⟨rowJ, hrow, hb⟩ := mapME_ok_mem h r hr
  exact framesEntryBody_cols hb

/-- The cik-column rewrite preserves every row's column names. -/
theorem applyCikPad_fst (r : Row) :
    (applyCikPad r).map Prod.fst = r.map Prod.fst := by
  unfold applyCikPad
  rw [List.map_map]
  refine List.map_congr_left fun kv _ => ?_
  by_cases hc : kv.1 = "cik" <;> simp [Function.comp, hc]

/-- Any successful `get_companytickers` call (either flag mode) produces
rows that all carry exactly the columns `cik`, `ticker`, `title`. -/
theorem get_companytickers_cols {body : J} {flag : Bool} {rows : List Row}
    (h : get_companytickers body flag = .ok rows) :
    ∀ r ∈ rows, r.map Prod.fst = ["cik", "ticker", "title"] := by
  unfold get_companytickers at h
  obtain ⟨doc, hd, h⟩ := bindE_ok h
  obtain ⟨entries, hm, h⟩ := bindE_ok h
  replace h : (if (keyUnion (entries.map fun e => e.map Prod.fst)).length = 3
      then (pure (if flag
        then (entries.map fun e => List.zip ["cik", "ticker", "title"]
          ((keyUnion (entries.map fun e => e.map Prod.fst)).map fun kq =>
            pyGet e kq)).map applyCikPad
        else entries.map fun e => List.zip ["cik", "ticker", "title"]
          ((keyUnion (entries.map fun e => e.map Prod.fst)).map fun kq =>
            pyGet e kq)) : Res)
      else .error .valueError) = .ok rows := h
  split at h
  case isFalse => simp at h
  case isTrue hlen =>
    simp only [pure, Except.pure, Except.ok.injEq] at h
    subst h
    have hnamed : ∀ r' ∈ entries.map fun e =>
        List.zip ["cik", "ticker", "title"]
          ((keyUnion (entries.map fun e => e.map Prod.fst)).map fun kq =>
            pyGet e kq),
        r'.map Prod.fst = ["cik", "ticker", "title"] := by
      intro r' hr'
      obtain ⟨e, he, rfl⟩ := List.mem_map.1 hr'
      refine List.map_fst_zip _ _ ?_
      simp [hlen]
    intro r hr
    cases flag with
    | false =>
      rw [if_neg Bool.false_ne_true] at hr
      exact hnamed r hr
    | true =>
      rw [if_pos rfl] at hr
      obtain ⟨r', hr', rfl⟩ := List.mem_map.1 hr
      rw [applyCikPad_fst]
      exact hnamed r' hr'

/-- Any successful `get_submissions` call produces rows that all share
one column set: the field names of the recent section, in order. -/
theorem get_submissions_cols {body : J} {rows : List Row}
    (h : get_submissions body = .ok rows) :
    ∀ r1 ∈ rows, ∀ r2 ∈ rows, r1.map Prod.fst = r2.map Prod.fst := by
  unfold get_submissions at h
  obtain ⟨doc, hd, h⟩ := bindE_ok h
  obtain ⟨filingsJ, hf, h⟩ := bindE_ok h
  obtain ⟨filings, hfs, h⟩ := bindE_ok h
  obtain ⟨recentJ, hrj, h⟩ := bindE_ok h
  obtain ⟨recent, hrc, h⟩ := bindE_ok h
  replace h : from_records_columnar recent = .ok rows := h
  unfold from_records_columnar at h
  obtain ⟨cols, hc, h⟩ := bindE_ok h
  rcases cols with _ | ⟨c0, rest⟩
  · replace h : (pure [] : Res) = .ok rows := h
    simp only [pure, Except.pure, Except.ok.injEq] at h
    subst h
    intro r1 hr1
    exact absurd hr1 (List.not_mem_nil r1)
  · replace h : (if (rest.all fun c => c.2.length = c0.2.length)
        then (pure ((List.range c0.2.length).map fun i =>
          (c0 :: rest).map fun c => (c.1, c.2.getD i J.nan)) : Res)
        else .error .valueError) = .ok rows := h
    split at h
    case isFalse => simp at h
    case isTrue =>
      simp only [pure, Except.pure, Except.ok.injEq] at h
      subst h
      have hfst : ∀ r ∈ (List.range c0.2.length).map fun i =>
          (c0 :: rest).map fun c => (c.1, c.2.getD i J.nan),
          r.map Prod.fst = (c0 :: rest).map Prod.fst := by
        intro r hr
        obtain ⟨i, hi, rfl⟩ := List.mem_map.1 hr
        rw [List.map_map]
        exact List.map_congr_left fun cc _ => rfl
      intro r1 hr1 r2 hr2
      rw [hfst r1 hr1, hfst r2 hr2]

/-- C4: for every operation, all rows of one successful call carry the
same complete set of declared columns (fixed `cik`/`ticker`/`title` for
the ticker list, the recent section's field names for submissions, and
the fixed declared lists for the concept, facts and frames operations);
an optional field absent from an upstream record appears in its row as
the missing-value marker, never as a dropped column and never as an
error — in particular an observation missing `fy` yields a row whose
`fy` cell is the marker, and a ticker entry missing `title` yields a row
whose `title` cell is the marker. -/
theorem rows_carry_complete_columns (b1 b2 b3 b4 b5 : J) (flag : Bool)
    (rows1 rows2 rows3 rows4 rows5 : List Row)
    (cik taxonomy tag label descr en : J) (u ts gs : String)
    (ta tb tc td te : J) (o : List (String × J))
    (h1 : get_companyconcept b1 = .ok rows1)
    (h2 : get_companyfacts b2 = .ok rows2)
    (h3 : get_frames b3 = .ok rows3)
    (h4 : get_companytickers b4 flag = .ok rows4)
    (h5 : get_submissions b5 = .ok rows5)
    (h6 : List.lookup "fy" o = none) :
    (∀ r ∈ rows1, r.map Prod.fst = conceptCols) ∧
    (∀ r ∈ rows2, r.map Prod.fst = factsCols) ∧
    (∀ r ∈ rows3, r.map Prod.fst = framesCols) ∧
    (∀ r ∈ rows4, r.map Prod.fst = ["cik", "ticker", "title"]) ∧
    (∀ r1 ∈ rows5, ∀ r2 ∈ rows5, r1.map Prod.fst = r2.map Prod.fst) ∧
    get_companyconcept
        (encodeConcept cik taxonomy tag label descr en [(u, [o])]) =
      .ok [conceptRow cik taxonomy tag label descr en u o] ∧
    List.lookup "fy" (conceptRow cik taxonomy tag label descr en u o) =
      some J.nan ∧
    List.lookup "fy" (factsRow cik en ts gs label descr u o) = some J.nan ∧
    get_companytickers (J.obj [("0", J.obj [("cik_str", ta), ("ticker", tb),
        ("title", tc)]), ("1", J.obj [("cik_str", td), ("ticker", te)])])
        false =
      .ok [[("cik", ta), ("ticker", tb), ("title", tc)],
           [("cik", td), ("ticker", te), ("title", J.nan)]] := by
  refine ⟨get_companyconcept_cols h1, get_companyfacts_cols h2,
    get_frames_cols h3, get_companytickers_cols h4, get_submissions_cols h5,
    ?_, ?_, ?_, rfl⟩
  · rw [get_companyconcept_encode]
    simp [companyconceptSpecRows]
  · have hx : List.lookup "fy" (conceptRow cik taxonomy tag label descr en u o) =
        some (pyGet o "fy") := rfl
    rw [hx]
    simp [pyGet, h6]
  · have hy : List.lookup "fy" (factsRow cik en ts gs label descr u o) =
        some (pyGet o "fy") := rfl
    rw [hy]
    simp [pyGet, h6]

/-- C4 witness: the theorem applied to concrete one-row calls of all five
operations and to the empty observation (which lacks `fy`). -/
theorem rows_carry_complete_columns_witness :
    get_companyconcept (encodeConcept (J.str "1") (J.str "t") (J.str "g")
        (J.str "L") (J.str "D") (J.str "E") [("USD", [[]])]) =
      .ok [conceptRow (J.str "1") (J.str "t") (J.str "g") (J.str "L")
        (J.str "D") (J.str "E") "USD" []] ∧
    get_companyfacts (encodeFacts (J.str "1") (J.str "E")
        [("t", [("g", ⟨J.str "L", J.str "D", [("USD", [[]])]⟩)])]) =
      .ok [factsRow (J.str "1") (J.str "E") "t" "g" (J.str "L") (J.str "D")
        "USD" []] ∧
    get_frames (encodeFrames (J.str "t") (J.str "g") (J.str "c") (J.str "u")
        (J.str "L") (J.str "D") [[]]) =
      .ok [frameRow (J.str "t") (J.str "g") (J.str "c") (J.str "u")
        (J.str "L") (J.str "D") []] ∧
    get_companytickers (J.obj [("0", J.obj [("cik_str", J.num 1),
        ("ticker", J.str "A"), ("title", J.str "B")])]) false =
      .ok [[("cik", J.num 1), ("ticker", J.str "A"), ("title", J.str "B")]] ∧
    get_submissions (encodeSubmissions [("form", [J.str "10-K"])]) =
      .ok [[("form", J.str "10-K")]] ∧
    List.lookup "fy" ([] : List (String × J)) = none ∧
    ((∀ r ∈ [conceptRow (J.str "1") (J.str "t") (J.str "g") (J.str "L")
        (J.str "D") (J.str "E") "USD" []], r.map Prod.fst = conceptCols) ∧
     (∀ r ∈ [factsRow (J.str "1") (J.str "E") "t" "g" (J.str "L") (J.str "D")
        "USD" []], r.map Prod.fst = factsCols) ∧
     (∀ r ∈ [frameRow (J.str "t") (J.str "g") (J.str "c") (J.str "u")
        (J.str "L") (J.str "D") []], r.map Prod.fst = framesCols) ∧
     (∀ r ∈ [[("cik", J.num 1), ("ticker", J.str "A"), ("title", J.str "B")]],
        r.map Prod.fst = ["cik", "ticker", "title"]) ∧
     (∀ r1 ∈ [[("form", J.str "10-K")]], ∀ r2 ∈ [[("form", J.str "10-K")]],
        r1.map Prod.fst = r2.map Prod.fst) ∧
     get_companyconcept (encodeConcept (J.str "1") (J.str "t") (J.str "g")
        (J.str "L") (J.str "D") (J.str "E") [("USD", [[]])]) =
      .ok [conceptRow (J.str "1") (J.str "t") (J.str "g") (J.str "L")
        (J.str "D") (J.str "E") "USD" []] ∧
     List.lookup "fy" (conceptRow (J.str "1") (J.str "t") (J.str "g")
        (J.str "L") (J.str "D") (J.str "E") "USD" []) = some J.nan ∧
     List.lookup "fy" (factsRow (J.str "1") (J.str "E") "t" "g" (J.str "L")
        (J.str "D") "USD" []) = some J.nan ∧
     get_companytickers (J.obj [("0", J.obj [("cik_str", J.num 1),
        ("ticker", J.str "A"), ("title", J.str "B")]),
        ("1", J.obj [("cik_str", J.num 2), ("ticker", J.str "C")])]) false =
      .ok [[("cik", J.num 1), ("ticker", J.str "A"), ("title", J.str "B")],
           [("cik", J.num 2), ("ticker", J.str "C"), ("title", J.nan)]]) :=
  ⟨rfl, rfl, rfl, rfl, rfl, rfl,
    rows_carry_complete_columns
      (encodeConcept (J.str "1") (J.str "t") (J.str "g") (J.str "L")
        (J.str "D") (J.str "E") [("USD", [[]])])
      (encodeFacts (J.str "1") (J.str "E")
        [("t", [("g", ⟨J.str "L", J.str "D", [("USD", [[]])]⟩)])])
      (encodeFrames (J.str "t") (J.str "g") (J.str "c") (J.str "u")
        (J.str "L") (J.str "D") [[]])
      (J.obj [("0", J.obj [("cik_str", J.num 1), ("ticker", J.str "A"),
        ("title", J.str "B")])])
      (encodeSubmissions [("form", [J.str "10-K"])]) false
      [conceptRow (J.str "1") (J.str "t") (J.str "g") (J.str "L")
        (J.str "D") (J.str "E") "USD" []]
      [factsRow (J.str "1") (J.str "E") "t" "g" (J.str "L") (J.str "D")
        "USD" []]
      [frameRow (J.str "t") (J.str "g") (J.str "c") (J.str "u")
        (J.str "L") (J.str "D") []]
      [[("cik", J.num 1), ("ticker", J.str "A"), ("title", J.str "B")]]
      [[("form", J.str "10-K")]]
      (J.str "1") (J.str "t") (J.str "g") (J.str "L") (J.str "D") (J.str "E")
      "USD" "t" "g" (J.num 1) (J.str "A") (J.str "B") (J.num 2) (J.str "C")
      [] rfl rfl rfl rfl rfl rfl⟩

/-- C3: for every submissions document whose `recent` section consists of
parallel arrays of common length `N` (with distinct field names, as JSON
object keys are), `get_submissions` returns exactly `N` rows, and row `i`
holds, under each array's field name, element `i` of that array,
preserving the upstream array order. -/
theorem submissions_parallel_rows (recent : List (String × List J)) (N : Nat)
    (h0 : recent ≠ []) (h1 : ∀ p ∈ recent, p.2.length = N)
    (h2 : (recent.map Prod.fst).Nodup) :
    ∃ rows, get_submissions (encodeSubmissions recent) = .ok rows ∧
      rows.length = N ∧
      ∀ i, i < N → ∀ p ∈ recent,
        List.lookup p.1 (rows.getD i []) = some (p.2.getD i J.nan) := by
  rcases recent with _ | ⟨c0, rest⟩
  · exact absurd rfl h0
  have hc0 : c0.2.length = N := h1 c0 (List.mem_cons_self c0 rest)
  have hall : (rest.all fun c => c.2.length = c0.2.length) = true := by
    rw [List.all_eq_true]
    intro c hc
    have hcN := h1 c (List.mem_cons_of_mem c0 hc)
    simp [hcN, hc0]
  have hres : get_submissions (encodeSubmissions (c0 :: rest)) =
      .ok ((List.range c0.2.length).map fun i =>
        (c0 :: rest).map fun c => (c.1, c.2.getD i J.nan)) := by
    rw [get_submissions_encode]
    unfold from_records_columnar
    rw [from_records_columnar_cols (c0 :: rest)]
    simp only [ok_bind, hall]
    rfl
  refine ⟨_, hres, ?_, ?_⟩
  · simp [hc0]
  · intro i hi p hp
    have hl : i < ((List.range c0.2.length).map fun i =>
        (c0 :: rest).map fun c => (c.1, c.2.getD i J.nan)).length := by
      simpa [hc0] using hi
    rw [List.getD_eq_getElem _ _ hl, List.getElem_map, List.getElem_range]
    exact lookup_row_cell i (c0 :: rest) p hp h2

/-- C3 witness: the theorem applied to a two-column recent section of
length 2. -/
theorem submissions_parallel_rows_witness :
    ([("form", [J.str "10-K", J.str "10-Q"]),
      ("filed", [J.str "d1", J.str "d2"])] : List (String × List J)) ≠ [] ∧
    (∀ p ∈ ([("form", [J.str "10-K", J.str "10-Q"]),
      ("filed", [J.str "d1", J.str "d2"])] : List (String × List J)),
      p.2.length = 2) ∧
    (([("form", [J.str "10-K", J.str "10-Q"]),
      ("filed", [J.str "d1", J.str "d2"])] : List (String × List J)).map
        Prod.fst).Nodup ∧
    (∃ rows, get_submissions (encodeSubmissions
        [("form", [J.str "10-K", J.str "10-Q"]),
         ("filed", [J.str "d1", J.str "d2"])]) = .ok rows ∧
      rows.length = 2 ∧
      ∀ i, i < 2 → ∀ p ∈ ([("form", [J.str "10-K", J.str "10-Q"]),
        ("filed", [J.str "d1", J.str "d2"])] : List (String × List J)),
        List.lookup p.1 (rows.getD i []) = some (p.2.getD i J.nan)) :=
  ⟨by simp, by decide, by decide,
    submissions_parallel_rows
      [("form", [J.str "10-K", J.str "10-Q"]),
       ("filed", [J.str "d1", J.str "d2"])] 2
      (by simp) (by decide) (by decide)⟩

/-- C1: for every upstream company-facts document, `get_companyfacts`
emits exactly one row per innermost observation, in taxonomy iteration
order, then tag order within taxonomy, then unit order within tag, then
observation array order, with no re-sorting; in particular a document with
2 taxonomies, each with 1 tag, each with 2 units, each with 1 observation,
yields exactly 4 rows, each row carrying the taxonomy, tag and unit name
of its ancestry. -/
theorem companyfacts_one_row_per_obs_in_order (cik en : J)
    (facts : List (String × List (String × TagData))) :
    get_companyfacts (encodeFacts cik en facts) =
      .ok (companyfactsSpecRows cik en facts) ∧
    (∀ (t1 t2 g1 g2 u1 u2 u3 u4 : String) (l1 d1 l2 d2 : J)
        (o1 o2 o3 o4 : List (String × J)),
      get_companyfacts (encodeFacts cik en
          [(t1, [(g1, ⟨l1, d1, [(u1, [o1]), (u2, [o2])]⟩)]),
           (t2, [(g2, ⟨l2, d2, [(u3, [o3]), (u4, [o4])]⟩)])]) =
        .ok [factsRow cik en t1 g1 l1 d1 u1 o1,
             factsRow cik en t1 g1 l1 d1 u2 o2,
             factsRow cik en t2 g2 l2 d2 u3 o3,
             factsRow cik en t2 g2 l2 d2 u4 o4]) := by
  refine ⟨get_companyfacts_encode cik en facts, ?_⟩
  intro t1 t2 g1 g2 u1 u2 u3 u4 l1 d1 l2 d2 o1 o2 o3 o4
  rw [get_companyfacts_encode]
  simp [companyfactsSpecRows]

/-- C2: for every upstream single-concept document, `get_companyconcept`
emits one row per `(unit, observation)` pair, in unit iteration order then
within-unit array order; on a document whose units mapping is
`USD ↦ [obs1, obs2], shares ↦ [obs3]` it produces exactly 3 rows, the
first two with unit `USD` and the third with unit `shares`, and the
identifier, taxonomy, tag, label and description cells are identical
across all rows of one call. -/
theorem companyconcept_one_row_per_unit_obs (cik taxonomy tag label descr en : J)
    (units : List (String × List (List (String × J)))) :
    get_companyconcept (encodeConcept cik taxonomy tag label descr en units) =
      .ok (companyconceptSpecRows cik taxonomy tag label descr en units) ∧
    (∀ o1 o2 o3 : List (String × J),
      get_companyconcept (encodeConcept cik taxonomy tag label descr en
          [("USD", [o1, o2]), ("shares", [o3])]) =
        .ok [conceptRow cik taxonomy tag label descr en "USD" o1,
             conceptRow cik taxonomy tag label descr en "USD" o2,
             conceptRow cik taxonomy tag label descr en "shares" o3]) := by
  refine ⟨get_companyconcept_encode cik taxonomy tag label descr en units, ?_⟩
  intro o1 o2 o3
  rw [get_companyconcept_encode]
  simp [companyconceptSpecRows]

/-- C6 counterexample: a parsed response that does contain the `facts`
key can still fail — here the emitted dict display subscripts the absent
top-level `cik` key, so the operation raises rather than completing. -/
theorem companyfacts_fails_despite_facts_present :
    get_companyfacts (J.obj [("facts", J.obj [("us-gaap", J.obj [("Assets",
        J.obj [("label", J.str "Assets"),
               ("description", J.str "Total assets"),
               ("units", J.obj [("USD", J.arr [J.obj []])])])])])]) =
      .error (PyErr.keyError "cik") := rfl

/-- C7 counterexample: a frame document lacking the `ccp` key makes
`get_frames` raise a key error (the shared metadata is subscripted
directly), instead of filling the missing-value marker. -/
theorem frames_missing_ccp_raises :
    get_frames (J.obj [("taxonomy", J.str "us-gaap"), ("tag", J.str "Assets"),
        ("uom", J.str "USD"), ("label", J.str "Assets"),
        ("description", J.str "Total assets"),
        ("data", J.arr [J.obj []])]) =
      .error (PyErr.keyError "ccp") := rfl

/-- C8 counterexample: a completed exchange with HTTP status 404 whose
body is valid JSON is parsed and flattened normally — the status is never
inspected, so no NetworkError is raised. -/
theorem non_success_status_parsed :
    http_get_companytickers true (.ok ⟨404, some (J.obj [("0", J.obj
        [("cik_str", J.num 320193), ("ticker", J.str "AAPL"),
         ("title", J.str "Apple Inc.")])])⟩) =
      .ok [[("cik", J.str "CIK0000320193"), ("ticker", J.str "AAPL"),
            ("title", J.str "Apple Inc.")]] := rfl

/-- C6 amended: `get_companyfacts` fails with a key error on `facts`
whenever the parsed response lacks the top-level `facts` key; a response
that contains `facts` together with the other keys the flattening
subscripts (`cik`, `entityName` and each tag's `label`, `description`,
`units`) completes without error — but `facts` alone does not guarantee
success (see the counterexample). -/
theorem companyfacts_facts_key_behavior (kvs : List (String × J)) (cik en : J)
    (facts : List (String × List (String × TagData)))
    (h : List.lookup "facts" kvs = none) :
    get_companyfacts (J.obj kvs) = .error (.keyError "facts") ∧
    get_companyfacts (encodeFacts cik en facts) =
      .ok (companyfactsSpecRows cik en facts) := by
  constructor
  · unfold get_companyfacts
    simp [asObj, pyIndex, h]
  · exact get_companyfacts_encode cik en facts

/-- C6 witness: the amended theorem applied to the empty response object
and to a small well-formed facts document. -/
theorem companyfacts_facts_key_behavior_witness :
    List.lookup "facts" ([] : List (String × J)) = none ∧
    (get_companyfacts (J.obj ([] : List (String × J))) =
        .error (.keyError "facts") ∧
     get_companyfacts (encodeFacts (J.str "320193") (J.str "Apple Inc.")
        [("us-gaap", [("Assets", ⟨J.str "Assets", J.str "Total assets",
          [("USD", [[("val", J.num 100)]])]⟩)])]) =
       .ok (companyfactsSpecRows (J.str "320193") (J.str "Apple Inc.")
        [("us-gaap", [("Assets", ⟨J.str "Assets", J.str "Total assets",
          [("USD", [[("val", J.num 100)]])]⟩)])])) :=
  ⟨rfl, companyfacts_facts_key_behavior [] (J.str "320193") (J.str "Apple Inc.")
    [("us-gaap", [("Assets", ⟨J.str "Assets", J.str "Total assets",
      [("USD", [[("val", J.num 100)]])]⟩)])] rfl⟩

/-- C7 amended: `get_frames` emits one row per entry of the data array,
every entry-specific field defaulting to the missing-value marker when
absent; the shared metadata fields — including the
concept-composite-pointer `ccp` — are NOT defaulted: they are subscripted
directly, so a document lacking `ccp` (with at least one data entry)
raises a key error instead. -/
theorem frames_entry_fields_defaulted (taxonomy tag ccp uom label descr : J)
    (data : List (List (String × J))) (base : List (String × J)) :
    get_frames (encodeFrames taxonomy tag ccp uom label descr data) =
      .ok (data.map (frameRow taxonomy tag ccp uom label descr)) ∧
    frameRow taxonomy tag ccp uom label descr [] =
      [("taxonomy", taxonomy), ("tag", tag), ("ccp", ccp), ("uom", uom),
       ("label", label), ("description", descr),
       ("accn", J.nan), ("cik", J.nan), ("entityName", J.nan), ("loc", J.nan),
       ("end", J.nan), ("val", J.nan)] ∧
    get_frames (J.obj [("taxonomy", taxonomy), ("tag", tag), ("uom", uom),
        ("label", label), ("description", descr),
        ("data", J.arr [J.obj base])]) =
      .error (PyErr.keyError "ccp") :=
  ⟨get_frames_encode taxonomy tag ccp uom label descr data, rfl, rfl⟩

/-- C8 amended: no operation ever inspects the HTTP status code — a
completed exchange is parsed and flattened identically whatever its
status — and a transport failure propagates to the caller unchanged as a
NetworkError, with no internal retry. -/
theorem http_status_ignored_no_retry (s1 s2 : Nat) (b : Option J)
    (e : String) (flag : Bool) :
    http_get_companytickers flag (.ok ⟨s1, b⟩) =
      http_get_companytickers flag (.ok ⟨s2, b⟩) ∧
    http_get_submissions (.ok ⟨s1, b⟩) = http_get_submissions (.ok ⟨s2, b⟩) ∧
    http_get_companyconcept (.ok ⟨s1, b⟩) =
      http_get_companyconcept (.ok ⟨s2, b⟩) ∧
    http_get_companyfacts (.ok ⟨s1, b⟩) = http_get_companyfacts (.ok ⟨s2, b⟩) ∧
    http_get_frames (.ok ⟨s1, b⟩) = http_get_frames (.ok ⟨s2, b⟩) ∧
    http_get_companytickers flag (.error e) = .error (.network e) ∧
    http_get_submissions (.error e) = .error (.network e) ∧
    http_get_companyconcept (.error e) = .error (.network e) ∧
    http_get_companyfacts (.error e) = .error (.network e) ∧
    http_get_frames (.error e) = .error (.network e) :=
  ⟨rfl, rfl, rfl, rfl, rfl, rfl, rfl, rfl, rfl, rfl⟩

/-- C5: with the padded-identifier flag enabled, `get_companytickers`
renders each identifier as the literal tag `CIK` followed by its decimal
digits left-padded with zeros to exactly 10 digits; for the identifier
value 320193 the cik cell equals `CIK` concatenated with `0000320193`. -/
theorem companytickers_cik_padded (n : Nat) (t ti : J)
    (h : (Nat.repr n).length ≤ 10) :
    get_companytickers (J.obj [("0", J.obj
        [("cik_str", J.num (Int.ofNat n)), ("ticker", t), ("title", ti)])]) true =
      .ok [[("cik", J.str ("CIK" ++ padLeft (Nat.repr n) 10 '0')),
            ("ticker", t), ("title", ti)]] ∧
    (padLeft (Nat.repr n) 10 '0').length = 10 ∧
    padCikCell (J.num (Int.ofNat 320193)) = J.str ("CIK" ++ "0000320193") := by
  refine ⟨rfl, ?_, rfl⟩
  unfold padLeft
  split
  · next hge => exact le_antisymm h hge
  · next hlt =>
    rw [String.length_append]
    show (List.replicate (10 - (Nat.repr n).length) '0').length +
      (Nat.repr n).length = 10
    rw [List.length_replicate]
    omega

/-- C5 witness: the theorem applied to the identifier value 320193. -/
theorem companytickers_cik_padded_witness :
    (Nat.repr 320193).length ≤ 10 ∧
    (get_companytickers (J.obj [("0", J.obj
        [("cik_str", J.num (Int.ofNat 320193)), ("ticker", J.str "AAPL"),
         ("title", J.str "Apple Inc.")])]) true =
      .ok [[("cik", J.str ("CIK" ++ padLeft (Nat.repr 320193) 10 '0')),
            ("ticker", J.str "AAPL"), ("title", J.str "Apple Inc.")]] ∧
    (padLeft (Nat.repr 320193) 10 '0').length = 10 ∧
    padCikCell (J.num (Int.ofNat 320193)) = J.str ("CIK" ++ "0000320193")) :=
  ⟨by decide, companytickers_cik_padded 320193 (J.str "AAPL")
    (J.str "Apple Inc.") (by decide)⟩

/-- C9 amended: every key-driven flattening operation —
`get_companyconcept`, `get_companyfacts`, `get_frames` and
`get_submissions` — reads response objects only at its declared keys, so
an extra unspecified field (at the top level, inside the submissions
`filings` object, or inside an observation or data-entry record) leaves
the result unchanged; `get_companytickers`, however, fails on a response
with an extra field inside an entry, because its positional column
renaming requires exactly 3 columns. -/
theorem extra_fields_tolerated (base fbase : List (String × J)) (k : String)
    (v : J) (k2 : String) (v2 : J) (o : List (String × J))
    (cik taxonomy tag label descr en ccp uom l d : J)
    (u ts gs : String) (ta tb tc te : J) (flag : Bool)
    (hk : k ∉ readTopKeys) (hk2 : k2 ∉ readRecordKeys) :
    get_companyconcept (J.obj (base ++ [(k, v)])) =
      get_companyconcept (J.obj base) ∧
    get_companyfacts (J.obj (base ++ [(k, v)])) =
      get_companyfacts (J.obj base) ∧
    get_frames (J.obj (base ++ [(k, v)])) = get_frames (J.obj base) ∧
    get_submissions (J.obj (base ++ [(k, v)])) =
      get_submissions (J.obj base) ∧
    get_submissions (J.obj [("filings", J.obj (fbase ++ [(k, v)]))]) =
      get_submissions (J.obj [("filings", J.obj fbase)]) ∧
    get_companyconcept (encodeConcept cik taxonomy tag label descr en
        [(u, [o ++ [(k2, v2)]])]) =
      get_companyconcept (encodeConcept cik taxonomy tag label descr en
        [(u, [o])]) ∧
    get_companyfacts (encodeFacts cik en
        [(ts, [(gs, ⟨l, d, [(u, [o ++ [(k2, v2)]])]⟩)])]) =
      get_companyfacts (encodeFacts cik en
        [(ts, [(gs, ⟨l, d, [(u, [o])]⟩)])]) ∧
    get_frames (encodeFrames taxonomy tag ccp uom label descr
        [o ++ [(k2, v2)]]) =
      get_frames (encodeFrames taxonomy tag ccp uom label descr [o]) ∧
    get_companytickers (J.obj [("0", J.obj [("cik_str", ta), ("ticker", tb),
        ("title", tc), ("exchange", te)])]) flag = .error PyErr.valueError := by
  simp only [readTopKeys, List.mem_cons, List.not_mem_nil, or_false,
    not_or] at hk
  simp only [readRecordKeys, List.mem_cons, List.not_mem_nil, or_false,
    not_or] at hk2
  obtain ⟨t1, t2, t3, t4, t5, t6, t7, t8, t9, t10, t11, t12, t13⟩ := hk
  obtain ⟨r1, r2, r3, r4, r5, r6, r7, r8, r9, r10, r11⟩ := hk2
  refine ⟨?_, ?_, ?_, ?_, ?_, ?_, ?_, ?_, rfl⟩
  · have hobs : conceptObsBody (base ++ [(k, v)]) = conceptObsBody base := by
      funext u' rowJ
      unfold conceptObsBody
      rw [pyIndex_append_single v (Ne.symm t1) base,
          pyIndex_append_single v (Ne.symm t2) base,
          pyIndex_append_single v (Ne.symm t3) base,
          pyIndex_append_single v (Ne.symm t4) base,
          pyIndex_append_single v (Ne.symm t5) base,
          pyIndex_append_single v (Ne.symm t6) base]
    have hul : conceptUnitLevel (base ++ [(k, v)]) = conceptUnitLevel base := by
      funext u' vals
      unfold conceptUnitLevel
      rw [hobs]
    unfold get_companyconcept
    simp only [asObj, ok_bind]
    rw [pyIndex_append_single v (Ne.symm t7) base, hul]
  · have hfobs : factsObsBody (base ++ [(k, v)]) = factsObsBody base := by
      funext vt tx tg uu rowJ
      unfold factsObsBody
      rw [pyIndex_append_single v (Ne.symm t1) base,
          pyIndex_append_single v (Ne.symm t6) base]
    have hful : factsUnitLevel (base ++ [(k, v)]) = factsUnitLevel base := by
      funext vt tx tg uu vals
      unfold factsUnitLevel
      rw [hfobs]
    have hftg : factsTagBody (base ++ [(k, v)]) = factsTagBody base := by
      funext tx tg vtagJ
      unfold factsTagBody
      rw [hful]
    have hftx : factsTaxBody (base ++ [(k, v)]) = factsTaxBody base := by
      funext tx vtaxJ
      unfold factsTaxBody
      rw [hftg]
    unfold get_companyfacts
    simp only [asObj, ok_bind]
    rw [pyIndex_append_single v (Ne.symm t8) base, hftx]
  · have hfr : framesEntryBody (base ++ [(k, v)]) = framesEntryBody base := by
      funext rowJ
      unfold framesEntryBody
      rw [pyIndex_append_single v (Ne.symm t2) base,
          pyIndex_append_single v (Ne.symm t3) base,
          pyIndex_append_single v (Ne.symm t11) base,
          pyIndex_append_single v (Ne.symm t10) base,
          pyIndex_append_single v (Ne.symm t4) base,
          pyIndex_append_single v (Ne.symm t5) base]
    unfold get_frames
    simp only [asObj, ok_bind]
    rw [pyIndex_append_single v (Ne.symm t9) base, hfr]
  · unfold get_submissions
    simp only [asObj, ok_bind]
    rw [pyIndex_append_single v (Ne.symm t12) base]
  · have hsub : ∀ X : List (String × J),
        get_submissions (J.obj [("filings", J.obj X)]) =
          pyIndex X "recent" >>= fun recentJ =>
            asObj recentJ >>= fun recent => from_records_columnar recent :=
      fun X => rfl
    rw [hsub, hsub, pyIndex_append_single v (Ne.symm t13) fbase]
  · rw [get_companyconcept_encode, get_companyconcept_encode]
    simp [companyconceptSpecRows, conceptRow, obsCells,
      pyGet_append_single v2 (Ne.symm r1) o,
      pyGet_append_single v2 (Ne.symm r2) o,
      pyGet_append_single v2 (Ne.symm r3) o,
      pyGet_append_single v2 (Ne.symm r4) o,
      pyGet_append_single v2 (Ne.symm r5) o,
      pyGet_append_single v2 (Ne.symm r6) o,
      pyGet_append_single v2 (Ne.symm r7) o,
      pyGet_append_single v2 (Ne.symm r8) o]
  · rw [get_companyfacts_encode, get_companyfacts_encode]
    simp [companyfactsSpecRows, factsRow, obsCells,
      pyGet_append_single v2 (Ne.symm r1) o,
      pyGet_append_single v2 (Ne.symm r2) o,
      pyGet_append_single v2 (Ne.symm r3) o,
      pyGet_append_single v2 (Ne.symm r4) o,
      pyGet_append_single v2 (Ne.symm r5) o,
      pyGet_append_single v2 (Ne.symm r6) o,
      pyGet_append_single v2 (Ne.symm r7) o,
      pyGet_append_single v2 (Ne.symm r8) o]
  · rw [get_frames_encode, get_frames_encode]
    simp [frameRow,
      pyGet_append_single v2 (Ne.symm r3) o,
      pyGet_append_single v2 (Ne.symm r9) o,
      pyGet_append_single v2 (Ne.symm r10) o,
      pyGet_append_single v2 (Ne.symm r11) o,
      pyGet_append_single v2 (Ne.symm r1) o,
      pyGet_append_single v2 (Ne.symm r2) o]

/-- C9 witness: the amended theorem applied to concrete responses of the
four key-driven operations with an extra `sic` top-level field and an
extra `extra` record field, and to a ticker entry with an extra
`exchange` field. -/
theorem extra_fields_tolerated_witness :
    ("sic" ∉ readTopKeys) ∧ ("extra" ∉ readRecordKeys) ∧
    (get_companyconcept (J.obj ([("cik", J.num 1), ("taxonomy", J.str "t"),
        ("tag", J.str "g"), ("label", J.str "l"),
        ("description", J.str "d"), ("entityName", J.str "e"),
        ("units", J.obj [("USD", J.arr [J.obj []])])] ++ [("sic", J.null)])) =
      get_companyconcept (J.obj [("cik", J.num 1), ("taxonomy", J.str "t"),
        ("tag", J.str "g"), ("label", J.str "l"),
        ("description", J.str "d"), ("entityName", J.str "e"),
        ("units", J.obj [("USD", J.arr [J.obj []])])]) ∧
     get_companyfacts (J.obj ([("cik", J.num 1), ("taxonomy", J.str "t"),
        ("tag", J.str "g"), ("label", J.str "l"),
        ("description", J.str "d"), ("entityName", J.str "e"),
        ("units", J.obj [("USD", J.arr [J.obj []])])] ++ [("sic", J.null)])) =
      get_companyfacts (J.obj [("cik", J.num 1), ("taxonomy", J.str "t"),
        ("tag", J.str "g"), ("label", J.str "l"),
        ("description", J.str "d"), ("entityName", J.str "e"),
        ("units", J.obj [("USD", J.arr [J.obj []])])]) ∧
     get_frames (J.obj ([("cik", J.num 1), ("taxonomy", J.str "t"),
        ("tag", J.str "g"), ("label", J.str "l"),
        ("description", J.str "d"), ("entityName", J.str "e"),
        ("units", J.obj [("USD", J.arr [J.obj []])])] ++ [("sic", J.null)])) =
      get_frames (J.obj [("cik", J.num 1), ("taxonomy", J.str "t"),
        ("tag", J.str "g"), ("label", J.str "l"),
        ("description", J.str "d"), ("entityName", J.str "e"),
        ("units", J.obj [("USD", J.arr [J.obj []])])]) ∧
     get_submissions (J.obj ([("cik", J.num 1), ("taxonomy", J.str "t"),
        ("tag", J.str "g"), ("label", J.str "l"),
        ("description", J.str "d"), ("entityName", J.str "e"),
        ("units", J.obj [("USD", J.arr [J.obj []])])] ++ [("sic", J.null)])) =
      get_submissions (J.obj [("cik", J.num 1), ("taxonomy", J.str "t"),
        ("tag", J.str "g"), ("label", J.str "l"),
        ("description", J.str "d"), ("entityName", J.str "e"),
        ("units", J.obj [("USD", J.arr [J.obj []])])]) ∧
     get_submissions (J.obj [("filings", J.obj
        ([("recent", J.obj [("form", J.arr [J.str "10-K"])])] ++
          [("sic", J.null)]))]) =
      get_submissions (J.obj [("filings", J.obj
        [("recent", J.obj [("form", J.arr [J.str "10-K"])])])]) ∧
     get_companyconcept (encodeConcept (J.num 1) (J.str "t") (J.str "g")
        (J.str "L") (J.str "D") (J.str "E")
        [("USD", [[("val", J.num 5)] ++ [("extra", J.num 7)]])]) =
      get_companyconcept (encodeConcept (J.num 1) (J.str "t") (J.str "g")
        (J.str "L") (J.str "D") (J.str "E")
        [("USD", [[("val", J.num 5)]])]) ∧
     get_companyfacts (encodeFacts (J.num 1) (J.str "E")
        [("tf", [("gf", ⟨J.str "L2", J.str "D2",
          [("USD", [[("val", J.num 5)] ++ [("extra", J.num 7)]])]⟩)])]) =
      get_companyfacts (encodeFacts (J.num 1) (J.str "E")
        [("tf", [("gf", ⟨J.str "L2", J.str "D2",
          [("USD", [[("val", J.num 5)]])]⟩)])]) ∧
     get_frames (encodeFrames (J.str "t") (J.str "g") (J.str "c") (J.str "u")
        (J.str "L") (J.str "D") [[("val", J.num 5)] ++ [("extra", J.num 7)]]) =
      get_frames (encodeFrames (J.str "t") (J.str "g") (J.str "c") (J.str "u")
        (J.str "L") (J.str "D") [[("val", J.num 5)]]) ∧
     get_companytickers (J.obj [("0", J.obj [("cik_str", J.num 1),
        ("ticker", J.str "A"), ("title", J.str "B"),
        ("exchange", J.str "N")])]) true = .error PyErr.valueError) :=
  ⟨by decide, by decide,
    extra_fields_tolerated
      [("cik", J.num 1), ("taxonomy", J.str "t"), ("tag", J.str "g"),
       ("label", J.str "l"), ("description", J.str "d"),
       ("entityName", J.str "e"),
       ("units", J.obj [("USD", J.arr [J.obj []])])]
      [("recent", J.obj [("form", J.arr [J.str "10-K"])])]
      "sic" J.null "extra" (J.num 7) [("val", J.num 5)]
      (J.num 1) (J.str "t") (J.str "g") (J.str "L") (J.str "D") (J.str "E")
      (J.str "c") (J.str "u") (J.str "L2") (J.str "D2")
      "USD" "tf" "gf" (J.num 1) (J.str "A") (J.str "B") (J.str "N") true
      (by decide) (by decide)⟩

/-- Replacing the cik column's cells does not change lookups at any other
column name. -/
theorem lookup_applyCikPad (q : String) (hq : q ≠ "cik") :
    ∀ r : Row, List.lookup q (applyCikPad r) = List.lookup q r
  | [] => rfl
  | (k0, v0) :: t => by
      by_cases hc : k0 = "cik"
      · have hb : (q == k0) = false := beq_eq_false_iff_ne.2 (by rw [hc]; exact hq)
        simp only [applyCikPad, List.map_cons, if_pos hc]
        simp only [List.lookup, hb]
        exact lookup_applyCikPad q hq t
      · simp only [applyCikPad, List.map_cons, if_neg hc]
        cases hbeq : (q == k0) with
        | true => simp [List.lookup, hbeq]
        | false =>
            simp only [List.lookup, hbeq]
            exact lookup_applyCikPad q hq t

theorem tickerTitleProj_applyCikPad (r : Row) :
    tickerTitleProj (applyCikPad r) = tickerTitleProj r := by
  unfold tickerTitleProj
  rw [lookup_applyCikPad "ticker" (by decide) r,
      lookup_applyCikPad "title" (by decide) r]

theorem map_proj_applyCikPad (rows : List Row) :
    List.map tickerTitleProj (rows.map applyCikPad) =
      List.map tickerTitleProj rows := by
  rw [List.map_map]
  exact List.map_congr_left fun r _ => tickerTitleProj_applyCikPad r

/-- C10: the padded-identifier flag affects only the cik column — for
every upstream ticker document the ticker and title cells of the result
are identical whether the flag is enabled or disabled, and the number and
order of rows is the same in both modes (errors also agree). -/
theorem companytickers_flag_only_cik (body : J) :
    Except.map (List.map tickerTitleProj) (get_companytickers body true) =
      Except.map (List.map tickerTitleProj) (get_companytickers body false) ∧
    Except.map List.length (get_companytickers body true) =
      Except.map List.length (get_companytickers body false) := by
  unfold get_companytickers
  cases body with
  | obj doc =>
    have ha : asObj (J.obj doc) = Except.ok doc := rfl
    rw [ha]
    simp only [ok_bind]
    cases hm : mapME (fun kv => asObj kv.2) doc with
    | error e => exact ⟨rfl, rfl⟩
    | ok entries =>
      by_cases hlen :
          (keyUnion (entries.map fun e => e.map Prod.fst)).length = 3
      · refine ⟨?_, ?_⟩ <;>
          simp [hlen, Except.map, pure, Except.pure, Function.comp,
            tickerTitleProj_applyCikPad]
      · refine ⟨?_, ?_⟩ <;> simp [hlen]
  | null => exact ⟨rfl, rfl⟩
  | nan => exact ⟨rfl, rfl⟩
  | num n => exact ⟨rfl, rfl⟩
  | str s => exact ⟨rfl, rfl⟩
  | arr xs => exact ⟨rfl, rfl⟩

/-- C9 counterexample: two ticker documents that differ only in one extra
field inside one entry; the operation succeeds on the first and fails on
the second (the positional column renaming sees 4 columns instead of 3). -/
theorem tickers_extra_field_fails :
    get_companytickers (J.obj [("0", J.obj
        [("cik_str", J.num 320193), ("ticker", J.str "AAPL"),
         ("title", J.str "Apple Inc.")])]) true =
      .ok [[("cik", J.str "CIK0000320193"), ("ticker", J.str "AAPL"),
            ("title", J.str "Apple Inc.")]] ∧
    get_companytickers (J.obj [("0", J.obj
        [("cik_str", J.num 320193), ("ticker", J.str "AAPL"),
         ("title", J.str "Apple Inc."), ("exchange", J.str "NASDAQ")])]) true =
      .error PyErr.valueError :=
  ⟨rfl, rfl⟩

end SECAPI
